import Mathlib

/-!
# Verification of `spacelightd.py`

A shallow embedding of the core of the spacelight daemon: the shared light
state (globals `color_temp`, `brightness`, `on`, `is_running`), the input
event loop `handle_spacenav_events`, and the output sync loop
`set_led_settings`, together with proofs about the behaviour claimed in the
design specification.

Python floats are modelled as exact rationals (`ℚ`); every property proved
here concerns clamping bounds, change detection and control flow, none of
which depends on binary rounding. Python `int(x)` (truncation toward zero)
is modelled by `pyInt`.
-/

namespace Spacelightd

/-- The shared mutable state of the daemon: the module-level globals
`color_temp`, `brightness`, `on` (lines 11-13) and the liveness flag
`is_running` (line 14) of `spacelightd.py`. -/
structure DaemonState where
  color_temp : ℚ
  brightness : ℚ
  on_ : Bool
  is_running : Bool
deriving DecidableEq, Repr

/-- The state at process start: `color_temp = 0`, `brightness = 0`,
`on = False`, `is_running = True` (lines 11-14). -/
def initState : DaemonState :=
  { color_temp := 0, brightness := 0, on_ := false, is_running := true }

/-- Events delivered by `spacenav.poll()`: a motion event with integer axis
values `rx`, `ry`, `rz`, a button event with an integer button number and a
pressed flag (the driver reports `pressed` as an integer, compared against
`1` in the code), or anything else (including no event). -/
inductive SpnavEvent where
  | motion (rx ry rz : ℤ)
  | button (button pressed : ℤ)
  | other
deriving DecidableEq, Repr

/-- One pass of the event-dispatch body of `handle_spacenav_events`
(lines 44-64): a motion event is processed only while `on_` is true, computing
clamped new values and committing them only when at least one differs; a
button event first checks button 0 (toggle `on`) and then, in a separate
`if`, button 1 (preset `color_temp = 127`, `brightness = 255`, `on = True`);
everything else is ignored. -/
def handleEvent (s : DaemonState) : SpnavEvent → DaemonState
  | .motion rx _ry rz =>
    if s.on_ then
      let new_color_temp := max 0 (min 255 (s.color_temp - (rz : ℚ) / 300))
      let new_brightness := max 1 (min 255 (s.brightness - (rx : ℚ) / 300))
      if new_color_temp ≠ s.color_temp ∨ new_brightness ≠ s.brightness then
        { s with color_temp := new_color_temp, brightness := new_brightness }
      else s
    else s
  | .button b p =>
    let s1 := if b = 0 ∧ p = 1 then { s with on_ := !s.on_ } else s
    if b = 1 ∧ p = 1 then
      { s1 with color_temp := 127, brightness := 255, on_ := true }
    else s1
  | .other => s

/-- The event loop of `handle_spacenav_events` (lines 42-66): as long as
`is_running` holds, poll one event and dispatch it; once `is_running` is
false the loop exits without touching the state. -/
def runEvents (s : DaemonState) : List SpnavEvent → DaemonState
  | [] => s
  | e :: es => if s.is_running then runEvents (handleEvent s e) es else s

/-- A state is reachable when some finite sequence of polled events drives
the initial state to it. -/
def Reachable (s : DaemonState) : Prop :=
  ∃ evs : List SpnavEvent, runEvents initState evs = s

/-! ## The output sync loop `set_led_settings` -/

/-- Python `int(x)`: truncation toward zero. -/
def pyInt (q : ℚ) : ℤ :=
  if 0 ≤ q then ⌊q⌋ else ⌈q⌉

/-- The snapshot of the shared light state read by the output sync loop
(the globals `color_temp`, `brightness`, `on` as observed in one inner-loop
pass of `set_led_settings`). -/
structure LightObs where
  color_temp : ℚ
  brightness : ℚ
  on_ : Bool
deriving DecidableEq, Repr

/-- The baseline of last-pushed values `last_color_temp`, `last_brightness`,
`last_on` (lines 71-73), each initialised to `None` and set to a pushed value
after a successful push. -/
structure Baseline where
  last_color_temp : Option ℚ
  last_brightness : Option ℚ
  last_on : Option Bool
deriving DecidableEq, Repr

/-- The baselines at entry of `set_led_settings`: all `None` (lines 71-73),
so the first comparison always differs. -/
def initBaseline : Baseline :=
  { last_color_temp := none, last_brightness := none, last_on := none }

/-- Commands issued to the WLED fixture: `led.master(on=..., brightness=...)`
and `led.segment(index, brightness=..., cct=...)`. -/
inductive Push where
  | master (on_ : Bool) (brightness : ℤ)
  | segment (index : ℤ) (brightness : ℤ) (cct : ℤ)
deriving DecidableEq, Repr

/-- One pass of the inner `while is_running` body of `set_led_settings`
(lines 86-97): if any of `color_temp`, `brightness`, `on` differs from the
corresponding `last_*` baseline (a `None` baseline differs from every value,
as in Python), push a master update with `brightness=255` and a segment
update with the truncated state values, then record the just-pushed values
as the new baseline; otherwise push nothing and keep the baseline. -/
def syncCycle (obs : LightObs) (b : Baseline) : Baseline × List Push :=
  if some obs.color_temp ≠ b.last_color_temp ∨ some obs.brightness ≠ b.last_brightness ∨
      some obs.on_ ≠ b.last_on then
    ({ last_color_temp := some obs.color_temp, last_brightness := some obs.brightness,
       last_on := some obs.on_ },
     [Push.master obs.on_ 255, Push.segment 0 (pyInt obs.brightness) (pyInt obs.color_temp)])
  else
    (b, [])

/-- A run of the output sync loop, abstracting each outer-loop turn to either
a failed cycle (`none`: the connect attempt timed out or raised, or the
connected phase raised before completing a push — the `except`/`finally`
blocks of lines 98-107 touch no `last_*` variable) or a connected pass over
an observed snapshot (`some obs`, executing the inner body of lines 86-97).
Returns the final baseline and the concatenated pushes. -/
def syncRun (b : Baseline) : List (Option LightObs) → Baseline × List Push
  | [] => (b, [])
  | none :: rest => syncRun b rest
  | some obs :: rest =>
    let step := syncCycle obs b
    let tail := syncRun step.1 rest
    (tail.1, step.2 ++ tail.2)

/-! ## Error handling of the outer loop of `set_led_settings` -/

/-- The WLED connection handle, abstracted to its liveness flag
`led.connected`. -/
structure WledHandle where
  connected : Bool
deriving DecidableEq, Repr

/-- How one turn of the outer `while is_running` loop of `set_led_settings`
ends: the inner loop exits normally because `is_running` became false,
`asyncio.wait_for(led.connect(), timeout=5)` raises `asyncio.TimeoutError`,
or any other `Exception` is raised (connect failure or transport error while
connected). -/
inductive TryExit where
  | normal
  | timeout
  | error (msg : String)
deriving DecidableEq, Repr

/-- What one outer-loop turn does after its `try` block ends: the message
logged by the matching `except` clause (none on normal exit), the handle
passed to `led.close()` by the `finally` block, the value of `led` afterwards,
the cooldown sleep before the next turn, and whether the condition escalates
to loop termination. -/
structure IterOutcome where
  loggedMsg : Option String
  closedLed : Option WledHandle
  ledAfter : Option WledHandle
  cooldown : ℚ
  fatal : Bool
deriving DecidableEq, Repr

/-- The timeout handed to `asyncio.wait_for` around `led.connect()`
(line 80). -/
def connectTimeout : ℚ := 5

/-- The `except`/`finally`/`sleep` tail of one outer-loop turn of
`set_led_settings` (lines 98-107): `asyncio.TimeoutError` logs the timeout
message, any other exception logs the generic message with its text, a normal
exit logs nothing; in every case the `finally` block closes the current `led`
handle (if any) and resets it to `None`, then `await asyncio.sleep(1)` runs
and the outer loop re-checks `is_running` — no exit is fatal. -/
def outerIterFinish (exit : TryExit) (led : Option WledHandle) : IterOutcome :=
  let msg : Option String :=
    match exit with
    | .normal => none
    | .timeout => some "Connection to WLED timed out. Retrying..."
    | .error e => some ("An error occurred while connecting to WLED: " ++ e)
  { loggedMsg := msg, closedLed := led, ledAfter := none, cooldown := 1, fatal := false }

/-- The guard of line 78: a fresh `WLED` handle is constructed and connected
exactly when the current one is `None` or reports not connected. -/
def opensNewConnection : Option WledHandle → Bool
  | none => true
  | some led => !led.connected

/-! ## Whole-process operations and the run flag -/

/-- The operations of the program that could touch the shared globals:
one input-loop pass (`handle_spacenav_events`, which dispatches an event only
while `is_running`), one output-sync pass (`set_led_settings`, which reads
the light state and writes only its local `last_*` variables, never a
global), and the shutdown path (`stop_daemon`, lines 124-137, which reads
the PID file and sends `SIGTERM` to the recorded process — it assigns no
Python global, in particular it never writes `is_running`). -/
inductive DaemonOp where
  | inputEvent (e : SpnavEvent)
  | syncPass
  | stopDaemon
deriving DecidableEq, Repr

/-- Effect of one operation on the shared globals, as written in the source:
only the input loop mutates the light state; neither the sync loop nor
`stop_daemon` assigns any global. -/
def applyOp (s : DaemonState) : DaemonOp → DaemonState
  | .inputEvent e => if s.is_running then handleEvent s e else s
  | .syncPass => s
  | .stopDaemon => s

/-- A whole-process run: fold the operations over the start state. -/
def runOps (s : DaemonState) : List DaemonOp → DaemonState
  | [] => s
  | op :: ops => runOps (applyOp s op) ops

/-! ## Spec-side definitions (for refinement statements) -/

/-- The clamp function as the specification words it:
`clamp(x, lo, hi)` bounds `x` into `[lo, hi]`. -/
def clamp (lo hi x : ℚ) : ℚ := max lo (min hi x)

/-- Modelled from the spec: the motion-event translation as the design
document words it — `newColorTemp = clamp(colorTemp - rz/300, 0, 255)`,
`newBrightness = clamp(brightness - rx/300, 1, 255)`, committed only if
either value actually changed, otherwise the state is left untouched. -/
def motionSpecUpdate (s : DaemonState) (rx rz : ℤ) : DaemonState :=
  let newColorTemp := clamp 0 255 (s.color_temp - (rz : ℚ) / 300)
  let newBrightness := clamp 1 255 (s.brightness - (rx : ℚ) / 300)
  if newColorTemp = s.color_temp ∧ newBrightness = s.brightness then s
  else { s with color_temp := newColorTemp, brightness := newBrightness }

/-! ## Helper lemmas -/

/-- Bounds of the state fields: what the spec calls the clamping invariant,
weakened at the floor (the code starts `brightness` at `0`). -/
def StateBounds (s : DaemonState) : Prop :=
  0 ≤ s.brightness ∧ s.brightness ≤ 255 ∧ 0 ≤ s.color_temp ∧ s.color_temp ≤ 255

lemma clamp0_bounds (x : ℚ) : 0 ≤ max 0 (min 255 x) ∧ max 0 (min 255 x) ≤ 255 :=
  ⟨le_max_left _ _, max_le (by norm_num) (min_le_left _ _)⟩

lemma clamp1_bounds (x : ℚ) : 1 ≤ max 1 (min 255 x) ∧ max 1 (min 255 x) ≤ 255 :=
  ⟨le_max_left _ _, max_le (by norm_num) (min_le_left _ _)⟩

lemma handleEvent_bounds (s : DaemonState) (e : SpnavEvent) (h : StateBounds s) :
    StateBounds (handleEvent s e) := by
  obtain ⟨hb0, hb1, hc0, hc1⟩ := h
  cases e with
  | motion rx ry rz =>
    simp only [handleEvent]
    split_ifs
    · exact ⟨le_trans zero_le_one (clamp1_bounds _).1, (clamp1_bounds _).2,
        (clamp0_bounds _).1, (clamp0_bounds _).2⟩
    · exact ⟨hb0, hb1, hc0, hc1⟩
    · exact ⟨hb0, hb1, hc0, hc1⟩
  | button b p =>
    simp only [handleEvent]
    split_ifs <;>
      exact ⟨by norm_num [hb0], by norm_num [hb1], by norm_num [hc0], by norm_num [hc1]⟩
  | other => exact ⟨hb0, hb1, hc0, hc1⟩

lemma runEvents_bounds (evs : List SpnavEvent) (s : DaemonState) (h : StateBounds s) :
    StateBounds (runEvents s evs) := by
  induction evs generalizing s with
  | nil => exact h
  | cons e es ih =>
    simp only [runEvents]
    split_ifs
    · exact ih _ (handleEvent_bounds s e h)
    · exact h

lemma handleEvent_floor (s : DaemonState) (e : SpnavEvent) (h : 1 ≤ s.brightness) :
    1 ≤ (handleEvent s e).brightness := by
  cases e with
  | motion rx ry rz =>
    simp only [handleEvent]
    split_ifs
    · exact (clamp1_bounds _).1
    · exact h
    · exact h
  | button b p =>
    simp only [handleEvent]
    split_ifs <;> first | exact h | norm_num
  | other => exact h

lemma runEvents_floor (evs : List SpnavEvent) (s : DaemonState) (h : 1 ≤ s.brightness) :
    1 ≤ (runEvents s evs).brightness := by
  induction evs generalizing s with
  | nil => exact h
  | cons e es ih =>
    simp only [runEvents]
    split_ifs
    · exact ih _ (handleEvent_floor s e h)
    · exact h

lemma handleEvent_is_running (s : DaemonState) (e : SpnavEvent) :
    (handleEvent s e).is_running = s.is_running := by
  cases e with
  | motion rx ry rz => simp only [handleEvent]; split_ifs <;> rfl
  | button b p => simp only [handleEvent]; split_ifs <;> rfl
  | other => rfl

lemma applyOp_is_running (s : DaemonState) (op : DaemonOp) :
    (applyOp s op).is_running = s.is_running := by
  cases op with
  | inputEvent e =>
    simp only [applyOp]
    split_ifs
    · exact handleEvent_is_running s e
    · rfl
  | syncPass => rfl
  | stopDaemon => rfl

lemma runOps_is_running (ops : List DaemonOp) (s : DaemonState) :
    (runOps s ops).is_running = s.is_running := by
  induction ops generalizing s with
  | nil => rfl
  | cons op ops ih => exact (ih (applyOp s op)).trans (applyOp_is_running s op)

/-! ## Claims -/

/-- C5: processing a button-1 press event yields exactly the state
`(on = true, brightness = 255, colorTemperature = 127)`, unconditionally,
for every prior state. -/
theorem button1_preset (s : DaemonState) :
    handleEvent s (.button 1 1) =
      { s with color_temp := 127, brightness := 255, on_ := true } := by
  simp [handleEvent]

/-- C6: a button-0 press event negates the `on` flag and leaves `brightness`
and `colorTemperature` unchanged; two consecutive button-0 presses restore
the original state (the toggle is an involution). -/
theorem button0_toggle_involution (s : DaemonState) :
    handleEvent s (.button 0 1) = { s with on_ := !s.on_ } ∧
    handleEvent (handleEvent s (.button 0 1)) (.button 0 1) = s := by
  constructor
  · simp [handleEvent]
  · simp [handleEvent, Bool.not_not]

/-- C9: any sequence of motion events processed while `on == false` leaves
the light state (`on`, `brightness`, `colorTemperature`) unchanged — motion
is ignored when off. -/
theorem motion_ignored_when_off (s : DaemonState) (evs : List SpnavEvent)
    (hoff : s.on_ = false)
    (hmot : ∀ e ∈ evs, ∃ rx ry rz, e = SpnavEvent.motion rx ry rz) :
    runEvents s evs = s := by
  induction evs with
  | nil => rfl
  | cons e es ih =>
    obtain ⟨rx, ry, rz, rfl⟩ := hmot _ (List.mem_cons_self _ _)
    have h1 : handleEvent s (.motion rx ry rz) = s := by
      simp [handleEvent, hoff]
    simp only [runEvents]
    split_ifs
    · rw [h1]; exact ih fun e he => hmot e (List.mem_cons_of_mem _ he)
    · rfl

/-- Witness for C9 at a concrete off state and motion sequence. -/
theorem motion_ignored_when_off_witness :
    runEvents initState [SpnavEvent.motion 5 7 9, SpnavEvent.motion (-300) 0 300] =
      initState :=
  motion_ignored_when_off initState _ rfl (by
    intro e he
    simp only [List.mem_cons, List.not_mem_nil, or_false] at he
    rcases he with rfl | rfl
    · exact ⟨5, 7, 9, rfl⟩
    · exact ⟨-300, 0, 300, rfl⟩)

/-- C1 (counterexample): the state reached from the initial state by a single
button-0 press has `on = true` and `brightness = 0`: a reachable state where
brightness is 0 while on, refuting `1 ≤ brightness` for reachable states. -/
theorem state_bounds_cex :
    Reachable { color_temp := 0, brightness := 0, on_ := true, is_running := true } ∧
    ({ color_temp := 0, brightness := 0, on_ := true, is_running := true } :
        DaemonState).on_ = true ∧
    ({ color_temp := 0, brightness := 0, on_ := true, is_running := true } :
        DaemonState).brightness = 0 :=
  ⟨⟨[.button 0 1], by decide⟩, rfl, rfl⟩

/-- C1 (amended): every reachable state satisfies `0 ≤ brightness ≤ 255` and
`0 ≤ colorTemperature ≤ 255`; the brightness floor of 1 holds for every value
the motion handler writes (a motion event leaves brightness unchanged or
makes it at least 1) and, once `1 ≤ brightness` holds, every further event
and event sequence preserves it — but brightness can be 0 while `on = true`,
because the initial `brightness = 0` persists until first written and a
button-0 press can set `on = true` before that. -/
theorem state_bounds_amended :
    (∀ s : DaemonState, Reachable s →
      0 ≤ s.brightness ∧ s.brightness ≤ 255 ∧ 0 ≤ s.color_temp ∧ s.color_temp ≤ 255) ∧
    (∀ (s : DaemonState) (rx ry rz : ℤ),
      (handleEvent s (.motion rx ry rz)).brightness = s.brightness ∨
        1 ≤ (handleEvent s (.motion rx ry rz)).brightness) ∧
    (∀ (s : DaemonState) (e : SpnavEvent), 1 ≤ s.brightness →
      1 ≤ (handleEvent s e).brightness) ∧
    (∀ (s : DaemonState) (evs : List SpnavEvent), 1 ≤ s.brightness →
      1 ≤ (runEvents s evs).brightness) := by
  refine ⟨?_, ?_, handleEvent_floor, fun s evs h => runEvents_floor evs s h⟩
  · rintro s ⟨evs, rfl⟩
    exact runEvents_bounds evs initState (by norm_num [initState, StateBounds])
  · intro s rx ry rz
    simp only [handleEvent]
    split_ifs
    · exact Or.inr (clamp1_bounds _).1
    · exact Or.inl rfl
    · exact Or.inl rfl

/-- Witness for C1 (amended) at the initial state. -/
theorem state_bounds_amended_witness :
    0 ≤ initState.brightness ∧ initState.brightness ≤ 255 ∧
      0 ≤ initState.color_temp ∧ initState.color_temp ≤ 255 :=
  state_bounds_amended.1 initState ⟨[], rfl⟩

/-- C2 (counterexample): running the shutdown path (`stop_daemon`, which
sends SIGTERM to the recorded PID and assigns no global) leaves `is_running`
true — the flag is not set false by the shutdown path. -/
theorem run_flag_cex :
    (runOps initState [DaemonOp.stopDaemon]).is_running = true := rfl

/-- C2 (amended): `is_running` is initialized true at process start and no
operation of the program — input-loop pass, sync-loop pass, or the shutdown
path — ever sets it false; the input loop does re-check the flag before each
poll and exits at once without further effect were the flag false, but that
cooperative exit is never exercised: `stop_daemon` terminates the daemon
with SIGTERM instead of clearing the flag. -/
theorem run_flag_never_cleared :
    initState.is_running = true ∧
    (∀ ops : List DaemonOp, (runOps initState ops).is_running = true) ∧
    (∀ (s : DaemonState) (evs : List SpnavEvent), s.is_running = false →
      runEvents s evs = s) := by
  refine ⟨rfl, fun ops => runOps_is_running ops initState, ?_⟩
  intro s evs h
  cases evs with
  | nil => rfl
  | cons e es => simp [runEvents, h]

/-- Witness for C2 (amended): with the flag already false, the event loop
processes nothing. -/
theorem run_flag_never_cleared_witness :
    runEvents { initState with is_running := false } [SpnavEvent.other] =
      { initState with is_running := false } :=
  run_flag_never_cleared.2.2 _ [SpnavEvent.other] rfl

/-- C3: one connected-state cycle of the output sync loop pushes if and only
if the observed state differs from the last-pushed baseline in at least one
of `on`, `brightness`, `colorTemperature`; with no difference zero pushes are
issued and the baseline is kept; on a difference exactly one master and one
segment update are issued and the baseline becomes the just-pushed values. -/
theorem sync_push_iff (obs : LightObs) (b : Baseline) :
    ((syncCycle obs b).2 ≠ [] ↔
      some obs.color_temp ≠ b.last_color_temp ∨ some obs.brightness ≠ b.last_brightness ∨
        some obs.on_ ≠ b.last_on) ∧
    ((syncCycle obs b).2 = [] → (syncCycle obs b).1 = b) ∧
    ((syncCycle obs b).2 ≠ [] →
      (syncCycle obs b).2 = [Push.master obs.on_ 255,
          Push.segment 0 (pyInt obs.brightness) (pyInt obs.color_temp)] ∧
        (syncCycle obs b).1 =
          { last_color_temp := some obs.color_temp,
            last_brightness := some obs.brightness, last_on := some obs.on_ }) := by
  unfold syncCycle
  split_ifs with h
  · simp [h]
  · simp [h]

/-- Witness for C3: the first cycle after the preset state always pushes
(the initial baselines are `None`). -/
theorem sync_push_iff_witness :
    (syncCycle { color_temp := 127, brightness := 255, on_ := true } initBaseline).2 =
      [Push.master true 255, Push.segment 0 (pyInt 255) (pyInt 127)] ∧
    (syncCycle { color_temp := 127, brightness := 255, on_ := true } initBaseline).1 =
      { last_color_temp := some 127, last_brightness := some 255, last_on := some true } :=
  (sync_push_iff { color_temp := 127, brightness := 255, on_ := true } initBaseline).2.2
    (by decide)

/-- C4: for every motion event processed while `on == true`, the update is
exactly the spec formula — `newColorTemp = clamp(colorTemp - rz/300, 0, 255)`
and `newBrightness = clamp(brightness - rx/300, 1, 255)` — committed only
when at least one value actually changed, otherwise the state is untouched. -/
theorem motion_event_spec (s : DaemonState) (rx ry rz : ℤ) (h : s.on_ = true) :
    handleEvent s (.motion rx ry rz) = motionSpecUpdate s rx rz := by
  simp only [handleEvent, motionSpecUpdate, clamp, h, if_true]
  split_ifs <;> first | rfl | tauto

/-- Witness for C4 at a concrete on state and motion values. -/
theorem motion_event_spec_witness :
    handleEvent { color_temp := 100, brightness := 200, on_ := true, is_running := true }
        (SpnavEvent.motion 300 0 600) =
      motionSpecUpdate
        { color_temp := 100, brightness := 200, on_ := true, is_running := true } 300 600 :=
  motion_event_spec _ 300 0 600 rfl

/-- C7: the connect timeout is 5 time units; a timeout and any other
connection/transport error are handled identically apart from the logged
message and are never fatal: every exit of an outer-loop turn — normal,
timeout, or error — closes the current handle, leaves `led = None` so that
the next turn opens a fresh connection, and sleeps the 1-time-unit cooldown
before retrying. -/
theorem error_recovery_uniform :
    connectTimeout = 5 ∧
    (∀ (ex : TryExit) (led : Option WledHandle),
      (outerIterFinish ex led).closedLed = led ∧
      (outerIterFinish ex led).ledAfter = none ∧
      (outerIterFinish ex led).cooldown = 1 ∧
      (outerIterFinish ex led).fatal = false ∧
      opensNewConnection (outerIterFinish ex led).ledAfter = true) ∧
    (∀ (msg : String) (led : Option WledHandle),
      { outerIterFinish TryExit.timeout led with loggedMsg := none } =
        { outerIterFinish (TryExit.error msg) led with loggedMsg := none }) :=
  ⟨rfl, fun _ _ => ⟨rfl, rfl, rfl, rfl, rfl⟩, fun _ _ => rfl⟩

/-- C8 (counterexample): a full trace — an initial push, a failed cycle, then
a reconnected cycle on an unchanged state — where the reconnected cycle
issues no push: the latest state is not unconditionally pushed on
reconnect. -/
theorem resync_reconnect_cex :
    syncRun initBaseline
      [some { color_temp := 0, brightness := 0, on_ := false }, none,
        some { color_temp := 0, brightness := 0, on_ := false }] =
      ({ last_color_temp := some 0, last_brightness := some 0, last_on := some false },
        [Push.master false 255, Push.segment 0 0 0]) := by
  decide

/-- C8 (amended): the `last_*` baseline survives failed cycles untouched, so
after any number of failed cycles the first connected cycle behaves exactly
like an immediate cycle on the latest state: it pushes the latest state if
and only if it differs from the last successfully pushed values — changes
made while disconnected are pushed immediately on reconnect, but an unchanged
state is not re-pushed. -/
theorem resync_on_reconnect (n : ℕ) (b : Baseline) (obs : LightObs) :
    syncRun b (List.replicate n none ++ [some obs]) = syncCycle obs b ∧
    ((some obs.color_temp ≠ b.last_color_temp ∨ some obs.brightness ≠ b.last_brightness ∨
        some obs.on_ ≠ b.last_on) →
      (syncRun b (List.replicate n none ++ [some obs])).2 =
        [Push.master obs.on_ 255,
          Push.segment 0 (pyInt obs.brightness) (pyInt obs.color_temp)]) := by
  have key : syncRun b (List.replicate n none ++ [some obs]) = syncCycle obs b := by
    induction n with
    | zero =>
      show syncRun b [some obs] = syncCycle obs b
      simp [syncRun]
    | succ n ih =>
      simp only [List.replicate, List.cons_append]
      show syncRun b (List.replicate n none ++ [some obs]) = syncCycle obs b
      exact ih
  refine ⟨key, fun h => ?_⟩
  rw [key]
  unfold syncCycle
  rw [if_pos h]

/-- Witness for C8 (amended): after three failed cycles, a changed state is
pushed on the first reconnected cycle. -/
theorem resync_on_reconnect_witness :
    (syncRun initBaseline
        (List.replicate 3 none ++
          [some { color_temp := 1, brightness := 2, on_ := true }])).2 =
      [Push.master true 255, Push.segment 0 (pyInt 2) (pyInt 1)] :=
  (resync_on_reconnect 3 initBaseline
    { color_temp := 1, brightness := 2, on_ := true }).2 (by decide)

/-- C10: in every push issued by a sync cycle, the master update carries
`brightness = 255` regardless of the state's brightness, and the segment
update (always segment 0) is the only place the state's brightness and color
temperature reach the fixture, truncated to integers. -/
theorem push_contents (obs : LightObs) (b : Baseline) :
    (∀ (o : Bool) (br : ℤ), Push.master o br ∈ (syncCycle obs b).2 → br = 255) ∧
    (∀ (i br ct : ℤ), Push.segment i br ct ∈ (syncCycle obs b).2 →
      i = 0 ∧ br = pyInt obs.brightness ∧ ct = pyInt obs.color_temp) := by
  unfold syncCycle
  split_ifs with h
  · constructor
    · intro o br hmem
      simp only [List.mem_cons, List.not_mem_nil, or_false] at hmem
      rcases hmem with h1 | h1 <;> simp_all
    · intro i br ct hmem
      simp only [List.mem_cons, List.not_mem_nil, or_false] at hmem
      rcases hmem with h1 | h1 <;> simp_all
  · constructor
    · intro o br hmem
      simp at hmem
    · intro i br ct hmem
      simp at hmem

/-- Witness for C10 at a concrete pushing cycle. -/
theorem push_contents_witness :
    Push.master true 255 ∈
      (syncCycle { color_temp := 127, brightness := 255, on_ := true } initBaseline).2 ∧
    (255 : ℤ) = 255 :=
  ⟨by decide,
    (push_contents { color_temp := 127, brightness := 255, on_ := true } initBaseline).1
      true 255 (by decide)⟩

end Spacelightd
